import Mathlib

/-!
Verification of the issue triage / answering engine of this repository.

Text is modelled as `List Char` (Python `str`).  The components embedded
from the source are:

* the citation rewriting algorithm from the `root_agent` instruction of
  `contributing/samples/adk_repo_answering_agent/agent.py` (lines 130-138),
  which carries a concrete, worked-out algorithm: replace the
  `gs://<bucket>/` part by `https://github.com/google/`, insert
  `blob/main/` after the repository name, and map a trailing `.html`
  back to `.md`;
* `add_comment_to_issue` from the same file (one POST attempt, an
  exception is converted into an error response, no retry);
* the `.md` → `.html` rename of `scripts/upload_docs_to_vertex_ai_search.py`
  (`gcs_path.removesuffix(".md") + ".html"`);
* the mode selection of `contributing/samples/adk_triaging_agent/main.py`
  (specific-issue event versus batch, with the batch size defaulting to 3).

The eligibility gate, the retrieval adapter contract, the dispatcher and
the batch driver exist in the source only as natural-language agent
instructions; those are modelled from the spec, as marked on each
definition.
-/

namespace AdkEngine

/-- Lower-case a character sequence, as Python `str.lower` does for the
case-insensitive marker comparison. -/
def lowerChars (s : List Char) : List Char := s.map Char.toLower

/-- First component of splitting at the first occurrence of `sep`:
`splitFirst sep l = some (before, after)` when `sep` occurs in `l`. -/
def splitFirst (sep : Char) : List Char → Option (List Char × List Char)
  | [] => none
  | c :: rest =>
    if c = sep then some ([], rest)
    else
      match splitFirst sep rest with
      | some (a, b) => some (c :: a, b)
      | none => none

/-- Drop the last `n` characters (`s[:-n]` on a string of known length). -/
def dropRightL (s : List Char) (n : Nat) : List Char := s.take (s.length - n)

/-- Python `str.removesuffix`: drop the suffix when it is present. -/
def removesuffix (s suf : List Char) : List Char :=
  if suf <:+ s then dropRightL s suf.length else s

/-- Step 4 of the citation rewrite, embodied in the instruction
`If the file is a html file, replace the ".html" to be ".md"`
(agent.py line 138). -/
def htmlToMd (rel : List Char) : List Char :=
  if ".html".data <:+ rel then dropRightL rel 5 ++ ".md".data else rel

/-- The citation rewriter, embedded from the `root_agent` instruction of
`adk_repo_answering_agent/agent.py` lines 130-138: on an input of shape
`gs://<bucket>/<repoName>/<relativePath>` it strips the scheme-and-bucket
part, produces `https://github.com/google/<repoName>/blob/main/<relativePath>`,
and maps a trailing `.html` of the relative path to `.md`.  Inputs that do
not carry the `gs://` scheme or the two separating slashes are rejected
(`MalformedReference`). -/
def rewriteCitation (path : List Char) : Option (List Char) :=
  if "gs://".data <+: path then
    match splitFirst '/' (path.drop 5) with
    | some (_bucket, afterBucket) =>
      match splitFirst '/' afterBucket with
      | some (repoName, rel) =>
        some ("https://github.com/google/".data ++ repoName
              ++ "/blob/main/".data ++ htmlToMd rel)
      | none => none
    | none => none
  else none

/-- Issue state: GitHub issues are `open` or `closed`. -/
inductive IssueState
  | opened
  | closed
deriving DecidableEq

/-- An issue snapshot (spec §3): number, title, body, state, labels,
reporter identity. -/
structure Issue where
  number : Nat
  title : List Char
  body : List Char
  state : IssueState
  labels : List (List Char)
  reporter : List Char
deriving DecidableEq

/-- A comment on an issue: author identity and body. -/
structure Comment where
  author : List Char
  body : List Char
deriving DecidableEq

/-- Skip reason codes (spec §3, §4.1, §7). -/
inductive SkipReason
  | closed
  | notReporter
  | alreadyResponded
  | notAQuestion
  | alreadyLabeled
  | featureRequest
  | noEvidence
  | denied
deriving DecidableEq

/-- The verdict of one engine evaluation (spec §3). -/
inductive Verdict
  | act
  | skip (reason : SkipReason)
deriving DecidableEq

/-- Remainder of `l` after the first occurrence of the pattern `P`;
`none` when `P` does not occur. -/
def restAfter (P : List Char) : List Char → Option (List Char)
  | [] => none
  | c :: l =>
    if P <+: (c :: l) then some ((c :: l).drop P.length)
    else restAfter P l

/-- The agent-attribution marker test: the body matches the pattern
`Response from *Agent` as a case-insensitive substring, i.e. lower-cased
it contains `response from` followed (possibly after other text) by
`agent`.  The marker itself appears in the instruction of agent.py
(lines 117 and 125-126). -/
def markerIn (body : List Char) : Bool :=
  match restAfter "response from".data (lowerChars body) with
  | some r => decide ("agent".data <:+: r)
  | none => false

/-- Modelled from the spec: Eligibility Gate of spec 4.1 for the answering
pipeline.  In the source this logic exists only as the natural-language
instruction of `root_agent` in `adk_repo_answering_agent/agent.py`
(steps 1-4, lines 110-119); the rule order and reason codes follow the spec.  The classifier judgments (is the last comment a question, is
the issue a feature request) are inputs. -/
def evaluateAnswering (issue : Issue) (comments : List Comment)
    (isQuestion isFeatureRequest : Bool) : Verdict :=
  if issue.state = .closed then .skip .closed
  else
    match comments.getLast? with
    | some c =>
      if c.author ≠ issue.reporter then .skip .notReporter
      else if markerIn c.body then .skip .alreadyResponded
      else if !isQuestion then .skip .notAQuestion
      else if isFeatureRequest then .skip .featureRequest
      else .act
    | none =>
      if isFeatureRequest then .skip .featureRequest else .act

/-- Modelled from the spec: Eligibility Gate of spec 4.1 for the triage
pipeline (rules 1 and 3; rule 1 is first and short-circuits).  The
instruction file of the triaging agent is not part of this tree; its
driver only carries the prompt `If the issue is already labelled,
please do not change it`. -/
def evaluateTriage (issue : Issue) : Verdict :=
  if issue.state = .closed then .skip .closed
  else if issue.labels ≠ [] then .skip .alreadyLabeled
  else .act

/-- A side-effecting write call against the tracker (spec §4.4: apply a
label XOR post a comment). -/
inductive WriteAction
  | postComment (body : List Char)
  | applyLabel (label : List Char)
deriving DecidableEq

/-- Modelled from the spec: the Action Dispatcher of spec 4.4 with the spec 5 approval
wait.  Given the interactivity flag, the (optional) external confirmation
signal and the verdict, it returns the final verdict together with the
list of write calls performed.  When `interactive` is set, the write
happens only on an explicit `some true` confirmation; a denial or a
timed-out wait degrades the verdict to Skip(denied) with no write. -/
def dispatch (interactive : Bool) (signal : Option Bool) (v : Verdict)
    (action : WriteAction) : Verdict × List WriteAction :=
  match v with
  | .skip r => (.skip r, [])
  | .act =>
    if interactive then
      match signal with
      | some true => (.act, [action])
      | _ => (.skip .denied, [])
    else (.act, [action])

/-- One ranked search hit of the Retrieval Service (spec §6): a document
path and an opaque relevance score. -/
structure SearchResult where
  documentPath : List Char
  score : Int
deriving DecidableEq

/-- Outcome of the Classifier/Retriever Adapter in answering mode
(spec §4.2): either the explicit no-answer sentinel, or draft text with
the supporting document paths in rank order. -/
inductive RetrievalOutcome
  | noAnswer
  | answer (draft : List Char) (docs : List (List Char))
deriving DecidableEq

/-- Modelled from the spec: the answering-mode Adapter of spec 4.2.  Documents
below the external relevance threshold do not count as support; when no
document meets it the Adapter returns the no-answer sentinel. -/
def retrieve (results : List SearchResult) (threshold : Int)
    (draft : List Char) : RetrievalOutcome :=
  let supporting := results.filter (fun r => threshold ≤ r.score)
  if supporting.isEmpty then .noAnswer
  else .answer draft (supporting.map SearchResult.documentPath)

/-- Modelled from the spec: the composition, by the engine, of the gate verdict
with the retrieval outcome (control flow of §2 and the hard policy of
§4.2): retrieval happens only on an Act gate verdict, and the no-answer
sentinel degrades the verdict to Skip(no-evidence). -/
def finalVerdict (gate : Verdict) (retrieval : RetrievalOutcome) : Verdict :=
  match gate with
  | .skip r => .skip r
  | .act =>
    match retrieval with
    | .noAnswer => .skip .noEvidence
    | .answer _ _ => .act

/-- The bolded attribution marker the agent is instructed to include in
every comment it posts (agent.py lines 125-126). -/
def ATTRIBUTION_MARKER : List Char := "**Response from ADK Answering Agent**".data

/-- Numbered footnote list of citation URLs, numbered from 1
(spec §4.4; agent.py lines 130-131: `[1] URL of the document`). -/
def footnotes : Nat → List (List Char) → List Char
  | _, [] => []
  | n, url :: rest =>
    "\n[".data ++ (Nat.repr n).data ++ "] ".data ++ url ++ footnotes (n + 1) rest

/-- Modelled from the spec: the answering-mode comment composition of spec 4.4 —
draft text, then the trailing bolded attribution marker, then the
numbered footnotes of the rewritten citation URLs. -/
def composeComment (draft : List Char) (urls : List (List Char)) : List Char :=
  draft ++ "\n\n".data ++ ATTRIBUTION_MARKER ++ footnotes 1 urls

/-- Outcome of one `post_request`/`get_request` transport attempt: a
response, or a raised `requests.exceptions.RequestException`. -/
inductive RequestOutcome
  | ok (resp : List Char)
  | exc (err : List Char)
deriving DecidableEq

/-- A structured API result as returned by the tool functions: a status
tag plus detail. -/
structure ApiResult where
  status : List Char
  detail : List Char
deriving DecidableEq

/-- Modelled from the spec: `error_response` of
`adk_repo_answering_agent/utils.py`, which is not part of this tree; per
§7 a failure is surfaced upward as a structured error result carrying
the message. -/
def error_response (errorMessage : List Char) : ApiResult :=
  ⟨"error".data, errorMessage⟩

/-- `add_comment_to_issue` of `adk_repo_answering_agent/agent.py`
(lines 58-79): it performs exactly one POST attempt; a transport
exception is caught and converted into an error response (no retry),
otherwise the applied comment is reported with success.  The returned
pair is (write attempts made, result). -/
def add_comment_to_issue (issue_number : Nat) (comment : List Char)
    (outcome : RequestOutcome) : List WriteAction × ApiResult :=
  match outcome with
  | .ok resp => ([.postComment comment], ⟨"success".data, resp⟩)
  | .exc e => ([.postComment comment], error_response e)

/-- Modelled from the spec: the triage-mode label application of spec 4.4 — apply
exactly the chosen label, never remove or alter other labels. -/
def applyLabelAction (issue : Issue) (label : List Char) : Issue :=
  { issue with labels := issue.labels ++ [label] }

/-- Modelled from the spec: the triage dispatcher — a Skip verdict leaves
the issue untouched, an Act verdict applies the single chosen label. -/
def triageDispatch (v : Verdict) (issue : Issue) (label : List Char) : Issue :=
  match v with
  | .skip _ => issue
  | .act => applyLabelAction issue label

/-- The GCS object path of an uploaded file,
`gcs_path = os.path.join(prefix, relative_path)`
(upload_docs_to_vertex_ai_search.py line 70). -/
def upload_gcs_path (destDir rel : List Char) : List Char :=
  destDir ++ '/' :: rel

/-- The stored path of a markdown file after the rename by the uploader
`gcs_path = gcs_path.removesuffix(".md") + ".html"`
(upload_docs_to_vertex_ai_search.py line 86). -/
def stored_md_path (gcsPath : List Char) : List Char :=
  removesuffix gcsPath ".md".data ++ ".html".data

/-- A single decimal digit, as accepted by Python `int`. -/
def charDigit (c : Char) : Option Nat :=
  if '0' ≤ c ∧ c ≤ '9' then some (c.toNat - '0'.toNat) else none

/-- Accumulating decimal parser over the remaining characters. -/
def parseNatAux : List Char → Nat → Option Nat
  | [], acc => some acc
  | c :: l, acc =>
    match charDigit c with
    | some d => parseNatAux l (acc * 10 + d)
    | none => none

/-- Parse a non-empty all-digit string, else fail. -/
def parseNat : List Char → Option Nat
  | [] => none
  | l => parseNatAux l 0

/-- Modelled from the spec: `parse_number_string` of
`adk_triaging_agent/utils.py`, which is not part of this tree — the
configured count string parses to its numeric value, and an absent or
unparsable value falls back to the supplied default (§4.5, batch size
default 3). -/
def parse_number_string (numberStr : Option (List Char))
    (defaultValue : Nat) : Nat :=
  match numberStr with
  | none => defaultValue
  | some s => (parseNat s).getD defaultValue

/-- The run mode selected by `main_sync` of `adk_triaging_agent/main.py`
(lines 67-82). -/
inductive RunMode
  | specific (issueNumber : Nat)
  | invalidIssueNumber
  | batch (issueCount : Nat)
deriving DecidableEq

/-- Mode selection of `main_sync` (adk_triaging_agent/main.py lines
67-82): a specific issue is targeted only on an `issues` event with a
truthy issue number; otherwise the batch prompt is built with
`parse_number_string(ISSUE_COUNT_TO_PROCESS, default_value=3)`. -/
def main_sync_mode (eventName : List Char) (issueNumber : Option (List Char))
    (issueCountToProcess : Option (List Char)) : RunMode :=
  match issueNumber with
  | some s =>
    if eventName = "issues".data ∧ s ≠ [] then
      match parseNat s with
      | some n => if n = 0 then .invalidIssueNumber else .specific n
      | none => .invalidIssueNumber
    else .batch (parse_number_string issueCountToProcess 3)
  | none => .batch (parse_number_string issueCountToProcess 3)

/-- Outcome of the state-machine instance of one issue (spec §4.5, §7): its
verdict, or a failure confined to that instance. -/
inductive IssueOutcome
  | done (v : Verdict)
  | failed (err : List Char)
deriving DecidableEq

/-- Modelled from the spec: the batch driver of spec 4.5 — it enumerates up to
`batchSize` most-recent issues (the input list is most-recent-first) and
runs one independent instance per issue, sequentially; the outcome of each
instance is a function of its own issue alone. -/
def runBatch (issues : List Issue) (batchSize : Nat)
    (instanceOutcome : Issue → IssueOutcome) : List IssueOutcome :=
  (issues.take batchSize).map instanceOutcome

/-! Helper lemmas about the string-level operations. -/

theorem dropRightL_append (x suf : List Char) :
    dropRightL (x ++ suf) suf.length = x := by
  unfold dropRightL
  rw [List.length_append, Nat.add_sub_cancel, List.take_left]

theorem removesuffix_append (x suf : List Char) :
    removesuffix (x ++ suf) suf = x := by
  unfold removesuffix
  rw [if_pos (List.suffix_append x suf), dropRightL_append]

theorem htmlToMd_append_html (y : List Char) :
    htmlToMd (y ++ ".html".data) = y ++ ".md".data := by
  unfold htmlToMd
  rw [if_pos (List.suffix_append y _)]
  have h5 : (5 : Nat) = ".html".data.length := by decide
  rw [h5, dropRightL_append]

theorem htmlToMd_of_not_html (rel : List Char) (h : ¬ ".html".data <:+ rel) :
    htmlToMd rel = rel := by
  unfold htmlToMd
  rw [if_neg h]

theorem splitFirst_append (sep : Char) (a b : List Char) (h : sep ∉ a) :
    splitFirst sep (a ++ sep :: b) = some (a, b) := by
  induction a with
  | nil => simp [splitFirst]
  | cons c a ih =>
    have hc : ¬ c = sep := by
      intro e
      exact h (by simp [e])
    have ha : sep ∉ a := fun m => h (List.mem_cons_of_mem _ m)
    simp [splitFirst, hc, ih ha]

/-- On any well-formed store path the rewriter strips the scheme-and-bucket
part and links into `blob/main` of the repository, applying the html
extension step to the relative path. -/
theorem rewriteCitation_wellformed (bucket repoName rel : List Char)
    (hb : '/' ∉ bucket) (hr : '/' ∉ repoName) :
    rewriteCitation ("gs://".data ++ bucket ++ '/' :: (repoName ++ '/' :: rel))
      = some ("https://github.com/google/".data ++ repoName
              ++ "/blob/main/".data ++ htmlToMd rel) := by
  unfold rewriteCitation
  have hpre : "gs://".data <+: "gs://".data ++ bucket ++ '/' :: (repoName ++ '/' :: rel) :=
    ⟨bucket ++ '/' :: (repoName ++ '/' :: rel), by simp⟩
  rw [if_pos hpre]
  have hdrop : ("gs://".data ++ bucket ++ '/' :: (repoName ++ '/' :: rel)).drop 5
      = bucket ++ '/' :: (repoName ++ '/' :: rel) := by
    have h5 : (5 : Nat) = "gs://".data.length := by decide
    rw [List.append_assoc, h5, List.drop_left]
  rw [hdrop, splitFirst_append _ _ _ hb]
  dsimp only
  rw [splitFirst_append _ _ _ hr]

theorem not_html_suffix_of_md (u : List Char) (h : ".md".data <:+ u) :
    ¬ ".html".data <:+ u := by
  intro hh
  rcases List.suffix_or_suffix_of_suffix h hh with h1 | h2
  · exact absurd h1 (by decide)
  · exact absurd h2 (by decide)

/-- When the pattern `P` occurs in the scanned text, `restAfter` finds an
occurrence whose remainder still ends with everything to the right of the
given occurrence. -/
theorem restAfter_append (P t : List Char) (hP : P ≠ []) :
    ∀ a : List Char, ∃ r, restAfter P (a ++ (P ++ t)) = some r ∧ t <:+ r := by
  intro a
  induction a with
  | nil =>
    match P, hP with
    | p :: P', _ =>
      refine ⟨t, ?_, List.suffix_refl t⟩
      have hpre : (p :: P') <+: p :: (P' ++ t) := ⟨t, rfl⟩
      have hdrop : List.drop (p :: P').length (p :: (P' ++ t)) = t := by
        rw [← List.cons_append, List.drop_left]
      simp [restAfter, hpre, hdrop]
  | cons c a ih =>
    rcases ih with ⟨r, hr, ht⟩
    by_cases hpre : P <+: (c :: (a ++ (P ++ t)))
    · refine ⟨(c :: (a ++ (P ++ t))).drop P.length, ?_, ?_⟩
      · simp [restAfter, hpre]
      · have hlt : t <:+ c :: (a ++ (P ++ t)) := ⟨c :: (a ++ P), by simp⟩
        have hds : (c :: (a ++ (P ++ t))).drop P.length <:+ c :: (a ++ (P ++ t)) :=
          List.drop_suffix _ _
        rcases List.suffix_or_suffix_of_suffix hlt hds with h1 | h2
        · exact h1
        · have hlen : ((c :: (a ++ (P ++ t))).drop P.length).length = t.length := by
            have hle := h2.length_le
            have hge : t.length ≤ ((c :: (a ++ (P ++ t))).drop P.length).length := by
              simp [List.length_drop, List.length_append]
              omega
            omega
          rw [h2.sublist.eq_of_length hlen]
    · refine ⟨r, ?_, ht⟩
      simp [restAfter, hpre, hr]

/-- A body whose lower-cased text contains `response from`, later followed
by `agent`, matches the marker pattern. -/
theorem markerIn_decomp (s a m b : List Char)
    (h : lowerChars s
        = a ++ ("response from".data ++ (m ++ ("agent".data ++ b)))) :
    markerIn s = true := by
  unfold markerIn
  obtain ⟨r, hr, ht⟩ :=
    restAfter_append "response from".data (m ++ ("agent".data ++ b)) (by decide) a
  rw [h, hr]
  apply decide_eq_true
  have hq : "agent".data <:+: m ++ ("agent".data ++ b) := ⟨m, b, by simp⟩
  exact hq.trans ht.isInfix

/-- Every comment the engine composes carries the attribution marker. -/
theorem markerIn_composeComment (draft : List Char) (urls : List (List Char)) :
    markerIn (composeComment draft urls) = true := by
  apply markerIn_decomp _
    (lowerChars draft ++ "\n\n**".data)
    (" adk answering ".data)
    ("**".data ++ lowerChars (footnotes 1 urls))
  unfold composeComment lowerChars
  simp only [List.map_append]
  rw [show List.map Char.toLower ATTRIBUTION_MARKER
      = "**".data ++ ("response from".data
          ++ (" adk answering ".data ++ ("agent".data ++ "**".data))) from by decide]
  rw [show List.map Char.toLower "\n\n".data = "\n\n".data from by decide]
  simp [List.append_assoc]

/-! Claim theorems. -/

/-- C1, counterexample: on the well-formed input
`gs://bucket/adk-docs/docs/index.html` the rewriter does not return
`https://github.com/google/adk-docs/blob/main/docs/index.html` — the
claimed general shape fails on relative paths ending in `.html`, because
the html extension step also applies. -/
theorem C1_counterexample :
    rewriteCitation "gs://bucket/adk-docs/docs/index.html".data
      ≠ some "https://github.com/google/adk-docs/blob/main/docs/index.html".data := by
  decide

/-- C1 (amended): the rewriter maps
`gs://bucket/adk-python/src/google/adk/version.py` to exactly
`https://github.com/google/adk-python/blob/main/src/google/adk/version.py`,
and in general, for every well-formed input
`gs://<bucket>/<repoName>/<relativePath>` whose relative path does not end
in `.html`, it strips the scheme-and-bucket part and produces
`https://github.com/google/<repoName>/blob/main/<relativePath>`. -/
theorem C1_rewrite_strips_and_links :
    (rewriteCitation "gs://bucket/adk-python/src/google/adk/version.py".data
      = some "https://github.com/google/adk-python/blob/main/src/google/adk/version.py".data)
    ∧ ∀ bucket repoName rel : List Char,
        '/' ∉ bucket → '/' ∉ repoName → ¬ (".html".data <:+ rel) →
        rewriteCitation ("gs://".data ++ bucket ++ '/' :: (repoName ++ '/' :: rel))
          = some ("https://github.com/google/".data ++ repoName
                  ++ "/blob/main/".data ++ rel) := by
  refine ⟨by decide, ?_⟩
  intro bucket repoName rel hb hr hh
  rw [rewriteCitation_wellformed bucket repoName rel hb hr,
    htmlToMd_of_not_html rel hh]

/-- C1, witness: the general statement applied at a concrete input. -/
theorem C1_rewrite_strips_and_links_witness :
    ('/' ∉ "mybucket".data) ∧ ('/' ∉ "adk-python".data)
    ∧ ¬ (".html".data <:+ "README.md".data)
    ∧ rewriteCitation ("gs://".data ++ "mybucket".data
          ++ '/' :: ("adk-python".data ++ '/' :: "README.md".data))
        = some ("https://github.com/google/".data ++ "adk-python".data
                ++ "/blob/main/".data ++ "README.md".data) :=
  ⟨by decide, by decide, by decide,
    C1_rewrite_strips_and_links.2 "mybucket".data "adk-python".data "README.md".data
      (by decide) (by decide) (by decide)⟩

/-- C2: for every well-formed store path whose relative path ends in
`.html`, the rewritten URL ends in `.md` and not in `.html`; in
particular `gs://bucket/adk-docs/docs/index.html` maps to
`https://github.com/google/adk-docs/blob/main/docs/index.md`. -/
theorem C2_html_maps_to_md :
    (rewriteCitation "gs://bucket/adk-docs/docs/index.html".data
      = some "https://github.com/google/adk-docs/blob/main/docs/index.md".data)
    ∧ ∀ bucket repoName rel : List Char,
        '/' ∉ bucket → '/' ∉ repoName → ".html".data <:+ rel →
        ∃ u, rewriteCitation ("gs://".data ++ bucket ++ '/' :: (repoName ++ '/' :: rel))
            = some u
          ∧ ".md".data <:+ u ∧ ¬ ".html".data <:+ u := by
  refine ⟨by decide, ?_⟩
  intro bucket repoName rel hb hr hh
  obtain ⟨y, hy⟩ := hh
  refine ⟨_, rewriteCitation_wellformed bucket repoName rel hb hr, ?_, ?_⟩
  · rw [← hy, htmlToMd_append_html]
    exact ⟨"https://github.com/google/".data ++ repoName ++ "/blob/main/".data ++ y,
      by simp⟩
  · rw [← hy, htmlToMd_append_html]
    apply not_html_suffix_of_md
    exact ⟨"https://github.com/google/".data ++ repoName ++ "/blob/main/".data ++ y,
      by simp⟩

/-- C2, witness: the general statement applied at a concrete input. -/
theorem C2_html_maps_to_md_witness :
    ('/' ∉ "bkt".data) ∧ ('/' ∉ "adk-docs".data)
    ∧ (".html".data <:+ "docs/index.html".data)
    ∧ ∃ u, rewriteCitation ("gs://".data ++ "bkt".data
            ++ '/' :: ("adk-docs".data ++ '/' :: "docs/index.html".data))
          = some u
        ∧ ".md".data <:+ u ∧ ¬ ".html".data <:+ u :=
  ⟨by decide, by decide, by decide,
    C2_html_maps_to_md.2 "bkt".data "adk-docs".data "docs/index.html".data
      (by decide) (by decide) (by decide)⟩

/-- C3: on a closed issue the gate yields Skip(closed) regardless of the
comment history and classifier signals — the closed-issue rule is first
and short-circuits all later rules, in both pipelines — and the
dispatcher performs no write on that verdict. -/
theorem C3_closed_issue_suppression :
    ∀ (issue : Issue) (comments : List Comment) (q fr : Bool)
      (interactive : Bool) (signal : Option Bool) (action : WriteAction),
      issue.state = .closed →
      evaluateAnswering issue comments q fr = .skip .closed
      ∧ evaluateTriage issue = .skip .closed
      ∧ (dispatch interactive signal (evaluateAnswering issue comments q fr) action).2
          = [] := by
  intro issue comments q fr interactive signal action h
  have h1 : evaluateAnswering issue comments q fr = .skip .closed := by
    unfold evaluateAnswering
    rw [if_pos h]
  have h2 : evaluateTriage issue = .skip .closed := by
    unfold evaluateTriage
    rw [if_pos h]
  refine ⟨h1, h2, ?_⟩
  rw [h1]
  rfl

/-- C3, witness: the theorem applied to a concrete closed issue with a
marker-free comment present. -/
theorem C3_closed_issue_suppression_witness :
    (Issue.state ⟨9, "t".data, "b".data, .closed, [], "alice".data⟩ = .closed)
    ∧ (evaluateAnswering ⟨9, "t".data, "b".data, .closed, [], "alice".data⟩
          [⟨"alice".data, "is this a bug?".data⟩] true false = .skip .closed
      ∧ evaluateTriage ⟨9, "t".data, "b".data, .closed, [], "alice".data⟩
          = .skip .closed
      ∧ (dispatch false none
            (evaluateAnswering ⟨9, "t".data, "b".data, .closed, [], "alice".data⟩
              [⟨"alice".data, "is this a bug?".data⟩] true false)
            (.postComment "hi".data)).2 = []) :=
  ⟨rfl,
    C3_closed_issue_suppression ⟨9, "t".data, "b".data, .closed, [], "alice".data⟩
      [⟨"alice".data, "is this a bug?".data⟩] true false false none
      (.postComment "hi".data) rfl⟩

/-- C4, counterexample: an open issue whose latest comment contains the
marker but was authored by someone other than the reporter is skipped
with reason not-reporter, not already-responded — the reporter check
fires first. -/
theorem C4_counterexample :
    markerIn "**Response from ADK Answering Agent** see above".data = true
    ∧ evaluateAnswering ⟨7, "t".data, "b".data, .opened, [], "alice".data⟩
        [⟨"adk-bot".data, "**Response from ADK Answering Agent** see above".data⟩]
        true false
      ≠ Verdict.skip .alreadyResponded := by
  decide

/-- C4 (amended): on an open issue whose latest comment matches the
marker pattern the gate never yields Act — it yields
Skip(already-responded) when that comment is by the issue reporter and
Skip(not-reporter) otherwise, so the engine never replies to its own or
a sibling agent prior comment — and every comment the engine composes
contains the bolded marker. -/
theorem C4_marker_suppression :
    ∀ (issue : Issue) (cs : List Comment) (c : Comment) (q fr : Bool),
      issue.state = .opened → markerIn c.body = true →
      (evaluateAnswering issue (cs ++ [c]) q fr
          = if c.author = issue.reporter then Verdict.skip .alreadyResponded
            else Verdict.skip .notReporter)
      ∧ evaluateAnswering issue (cs ++ [c]) q fr ≠ .act
      ∧ ∀ (draft : List Char) (urls : List (List Char)),
          markerIn (composeComment draft urls) = true := by
  intro issue cs c q fr hs hm
  have h1 : evaluateAnswering issue (cs ++ [c]) q fr
      = if c.author = issue.reporter then Verdict.skip .alreadyResponded
        else Verdict.skip .notReporter := by
    unfold evaluateAnswering
    rw [hs]
    rw [if_neg (by decide : ¬ (IssueState.opened = .closed))]
    rw [List.getLast?_concat]
    by_cases ha : c.author = issue.reporter
    · simp [ha, hm]
    · simp [ha]
  refine ⟨h1, ?_, fun draft urls => markerIn_composeComment draft urls⟩
  rw [h1]
  by_cases ha : c.author = issue.reporter <;> simp [ha]

/-- C4, witness: the amended theorem applied to a concrete open issue
whose reporter left a marker-bearing latest comment. -/
theorem C4_marker_suppression_witness :
    (Issue.state ⟨7, "t".data, "b".data, .opened, [], "alice".data⟩ = .opened)
    ∧ markerIn "see **Response from ADK Answering Agent** above".data = true
    ∧ (evaluateAnswering ⟨7, "t".data, "b".data, .opened, [], "alice".data⟩
          ([] ++ [⟨"alice".data, "see **Response from ADK Answering Agent** above".data⟩])
          true false
        = if Comment.author
              ⟨"alice".data, "see **Response from ADK Answering Agent** above".data⟩
            = Issue.reporter ⟨7, "t".data, "b".data, .opened, [], "alice".data⟩
          then Verdict.skip .alreadyResponded
          else Verdict.skip .notReporter)
    ∧ (evaluateAnswering ⟨7, "t".data, "b".data, .opened, [], "alice".data⟩
          ([] ++ [⟨"alice".data, "see **Response from ADK Answering Agent** above".data⟩])
          true false ≠ .act)
    ∧ markerIn (composeComment "answer text".data
        ["https://github.com/google/adk-docs/blob/main/docs/index.md".data]) = true :=
  ⟨rfl, by decide,
    (C4_marker_suppression ⟨7, "t".data, "b".data, .opened, [], "alice".data⟩ []
      ⟨"alice".data, "see **Response from ADK Answering Agent** above".data⟩
      true false rfl (by decide)).1,
    (C4_marker_suppression ⟨7, "t".data, "b".data, .opened, [], "alice".data⟩ []
      ⟨"alice".data, "see **Response from ADK Answering Agent** above".data⟩
      true false rfl (by decide)).2.1,
    (C4_marker_suppression ⟨7, "t".data, "b".data, .opened, [], "alice".data⟩ []
      ⟨"alice".data, "see **Response from ADK Answering Agent** above".data⟩
      true false rfl (by decide)).2.2 "answer text".data
      ["https://github.com/google/adk-docs/blob/main/docs/index.md".data]⟩

/-- C5, counterexample: a closed issue carrying a label is skipped with
reason closed, not already-labeled — the closed-issue rule fires first. -/
theorem C5_counterexample :
    (Issue.labels ⟨3, "t".data, "b".data, .closed, ["bug".data], "rep".data⟩ ≠ [])
    ∧ evaluateTriage ⟨3, "t".data, "b".data, .closed, ["bug".data], "rep".data⟩
        ≠ Verdict.skip .alreadyLabeled := by
  decide

/-- C5 (amended): in triage mode every open issue with a non-empty label
set yields Skip(already-labeled) and its label set is left untouched by
dispatch; and no triage invocation ever removes or alters pre-existing
labels — they persist as a prefix of the resulting label set. -/
theorem C5_label_immutability :
    ∀ (issue : Issue) (label : List Char),
      (issue.state = .opened → issue.labels ≠ [] →
        evaluateTriage issue = .skip .alreadyLabeled
        ∧ triageDispatch (evaluateTriage issue) issue label = issue)
      ∧ issue.labels <+: (triageDispatch (evaluateTriage issue) issue label).labels := by
  intro issue label
  constructor
  · intro hs hl
    have h1 : evaluateTriage issue = .skip .alreadyLabeled := by
      unfold evaluateTriage
      rw [hs]
      rw [if_neg (by decide : ¬ (IssueState.opened = .closed)), if_pos hl]
    refine ⟨h1, ?_⟩
    rw [h1]
    rfl
  · cases hv : evaluateTriage issue with
    | skip r => exact List.prefix_refl _
    | act => exact List.prefix_append _ _

/-- C5, witness: the amended theorem applied to a concrete open,
already-labeled issue. -/
theorem C5_label_immutability_witness :
    (Issue.state ⟨5, "t".data, "b".data, .opened, ["bug".data], "rep".data⟩ = .opened)
    ∧ (Issue.labels ⟨5, "t".data, "b".data, .opened, ["bug".data], "rep".data⟩ ≠ [])
    ∧ (evaluateTriage ⟨5, "t".data, "b".data, .opened, ["bug".data], "rep".data⟩
          = .skip .alreadyLabeled
      ∧ triageDispatch
            (evaluateTriage ⟨5, "t".data, "b".data, .opened, ["bug".data], "rep".data⟩)
            ⟨5, "t".data, "b".data, .opened, ["bug".data], "rep".data⟩ "docs".data
          = ⟨5, "t".data, "b".data, .opened, ["bug".data], "rep".data⟩) :=
  ⟨rfl, by decide,
    (C5_label_immutability ⟨5, "t".data, "b".data, .opened, ["bug".data], "rep".data⟩
      "docs".data).1 rfl (by decide)⟩

/-- C6: when every search result is below the relevance threshold (in
particular when the result set is empty) the Adapter returns the
no-answer sentinel, the final verdict on an eligible issue is
Skip(no-evidence), and no comment is posted; and an Act final verdict is
only ever reached on a retrieval outcome other than the sentinel. -/
theorem C6_no_evidence_suppression :
    ∀ (results : List SearchResult) (threshold : Int) (draft : List Char)
      (interactive : Bool) (signal : Option Bool) (action : WriteAction),
      ((∀ r ∈ results, r.score < threshold) →
        retrieve results threshold draft = .noAnswer
        ∧ finalVerdict .act (retrieve results threshold draft) = .skip .noEvidence
        ∧ (dispatch interactive signal
            (finalVerdict .act (retrieve results threshold draft)) action).2 = [])
      ∧ ∀ (g : Verdict) (ro : RetrievalOutcome),
          finalVerdict g ro = .act → ro ≠ .noAnswer := by
  intro results threshold draft interactive signal action
  constructor
  · intro hbelow
    have hfilter : results.filter (fun r => decide (threshold ≤ r.score)) = [] := by
      rw [List.filter_eq_nil_iff]
      intro r hr
      simp only [decide_eq_true_eq, not_le]
      exact hbelow r hr
    have h1 : retrieve results threshold draft = .noAnswer := by
      unfold retrieve
      simp [hfilter]
    refine ⟨h1, ?_, ?_⟩
    · rw [h1]
      rfl
    · rw [h1]
      rfl
  · intro g ro he
    cases g with
    | skip r => exact absurd he (by simp [finalVerdict])
    | act =>
      cases ro with
      | noAnswer => exact absurd he (by simp [finalVerdict])
      | answer d docs => exact fun hcon => RetrievalOutcome.noConfusion hcon

/-- C6, witness: the theorem applied to one below-threshold result. -/
theorem C6_no_evidence_suppression_witness :
    (∀ r ∈ [(⟨"doc-a".data, 2⟩ : SearchResult)], r.score < (5 : Int))
    ∧ (retrieve [(⟨"doc-a".data, 2⟩ : SearchResult)] 5 "draft".data = .noAnswer
      ∧ finalVerdict .act (retrieve [(⟨"doc-a".data, 2⟩ : SearchResult)] 5 "draft".data)
          = .skip .noEvidence
      ∧ (dispatch false none
          (finalVerdict .act (retrieve [(⟨"doc-a".data, 2⟩ : SearchResult)] 5 "draft".data))
          (.postComment "hi".data)).2 = []) :=
  ⟨by decide,
    (C6_no_evidence_suppression [(⟨"doc-a".data, 2⟩ : SearchResult)] 5 "draft".data
      false none (.postComment "hi".data)).1 (by decide)⟩

/-- C7: with interactive approval enabled, a write happens only on an
explicit grant signal; a denial turns an Act verdict into Skip(denied)
with no write; with it disabled, dispatch of an Act verdict proceeds
regardless of any signal. -/
theorem C7_interactive_approval :
    ∀ (v : Verdict) (signal : Option Bool) (action : WriteAction),
      ((dispatch true signal v action).2 ≠ [] → signal = some true)
      ∧ (v = .act → dispatch true (some false) v action = (.skip .denied, []))
      ∧ ∀ s : Option Bool, dispatch false s .act action = (.act, [action]) := by
  intro v signal action
  refine ⟨?_, ?_, fun s => rfl⟩
  · intro hw
    cases v with
    | skip r => exact absurd rfl hw
    | act =>
      cases signal with
      | none => exact absurd rfl hw
      | some b =>
        cases b with
        | false => exact absurd rfl hw
        | true => rfl
  · intro hv
    rw [hv]
    rfl

/-- C7, witness: the theorem applied to an Act verdict, with each
hypothesis discharged at a concrete input. -/
theorem C7_interactive_approval_witness :
    ((dispatch true (some true) Verdict.act (.postComment "x".data)).2 ≠ [])
    ∧ ((some true : Option Bool) = some true)
    ∧ (dispatch true (some false) Verdict.act (.postComment "x".data)
        = (.skip .denied, []))
    ∧ (dispatch false none Verdict.act (.postComment "x".data)
        = (.act, [.postComment "x".data])) :=
  ⟨by decide,
    (C7_interactive_approval Verdict.act (some true) (.postComment "x".data)).1
      (by decide),
    (C7_interactive_approval Verdict.act (some true) (.postComment "x".data)).2.1 rfl,
    (C7_interactive_approval Verdict.act (some true) (.postComment "x".data)).2.2 none⟩

/-- C8: every call of `add_comment_to_issue` makes exactly one POST
attempt — on a transport exception it reports the structured error
result upward, still with the single attempt and no retry — and the
dispatcher performs at most one write call per verdict. -/
theorem C8_at_most_one_write :
    ∀ (issue_number : Nat) (comment e : List Char) (outcome : RequestOutcome)
      (interactive : Bool) (signal : Option Bool) (v : Verdict)
      (action : WriteAction),
      ((add_comment_to_issue issue_number comment outcome).1.length = 1)
      ∧ ((add_comment_to_issue issue_number comment (.exc e)).2 = error_response e
        ∧ (error_response e).status = "error".data
        ∧ (add_comment_to_issue issue_number comment (.exc e)).1
            = [.postComment comment])
      ∧ (dispatch interactive signal v action).2.length ≤ 1 := by
  intro issue_number comment e outcome interactive signal v action
  refine ⟨?_, ⟨rfl, rfl, rfl⟩, ?_⟩
  · cases outcome <;> rfl
  · cases v with
    | skip r => exact Nat.zero_le 1
    | act =>
      cases interactive with
      | false => exact Nat.le_refl 1
      | true =>
        cases signal with
        | none => exact Nat.zero_le 1
        | some b => cases b <;> simp [dispatch]

/-- C9: in batch mode (no specific issue targeted) the driver runs on the
count parsed from configuration, which falls back to 3 when the value is
absent or unparsable; the run covers at most that many most-recent
issues; and every position of the outcome list is the instance outcome of
its own issue alone, so one failing instance never aborts the others. -/
theorem C9_batch_driver_bounded :
    ∀ (issues : List Issue) (instanceOutcome : Issue → IssueOutcome) (n : Nat)
      (eventName : List Char) (issueCountToProcess : Option (List Char)),
      (main_sync_mode eventName none issueCountToProcess
        = .batch (parse_number_string issueCountToProcess 3))
      ∧ parse_number_string none 3 = 3
      ∧ parse_number_string (some "not a number".data) 3 = 3
      ∧ parse_number_string (some "7".data) 3 = 7
      ∧ (runBatch issues n instanceOutcome).length = min n issues.length
      ∧ (runBatch issues n instanceOutcome).length ≤ n
      ∧ ∀ i : Nat,
          (runBatch issues n instanceOutcome).get? i
            = ((issues.take n).get? i).map instanceOutcome := by
  intro issues instanceOutcome n eventName issueCountToProcess
  refine ⟨rfl, rfl, by decide, by decide, ?_, ?_, ?_⟩
  · simp [runBatch]
  · simp [runBatch]
  · intro i
    show ((issues.take n).map instanceOutcome).get? i = _
    exact List.get?_map _ _ _

/-- C10: for every markdown source file, the path the uploader stores
(`.md` renamed to `.html` under the destination directory) rewrites to a
public URL whose relative path is exactly the original markdown path —
the uploader rename and the rewriter extension step round-trip. -/
theorem C10_upload_rewrite_roundtrip :
    ∀ bucket destDir rel : List Char,
      '/' ∉ bucket → '/' ∉ destDir → ".md".data <:+ rel →
      rewriteCitation ("gs://".data ++ bucket
          ++ '/' :: stored_md_path (upload_gcs_path destDir rel))
        = some ("https://github.com/google/".data ++ destDir
                ++ "/blob/main/".data ++ rel) := by
  intro bucket destDir rel hb hd hm
  obtain ⟨y, hy⟩ := hm
  have hstored : stored_md_path (upload_gcs_path destDir rel)
      = destDir ++ '/' :: (y ++ ".html".data) := by
    unfold stored_md_path upload_gcs_path
    rw [← hy]
    rw [show destDir ++ '/' :: (y ++ ".md".data)
        = (destDir ++ '/' :: y) ++ ".md".data from by simp]
    rw [removesuffix_append]
    simp
  rw [hstored, rewriteCitation_wellformed _ _ _ hb hd, htmlToMd_append_html, hy]

/-- C10, witness: the round trip at the concrete file `docs/index.md`. -/
theorem C10_upload_rewrite_roundtrip_witness :
    ('/' ∉ "adk-qa-bucket".data) ∧ ('/' ∉ "adk-docs".data)
    ∧ (".md".data <:+ "docs/index.md".data)
    ∧ rewriteCitation ("gs://".data ++ "adk-qa-bucket".data
          ++ '/' :: stored_md_path (upload_gcs_path "adk-docs".data "docs/index.md".data))
        = some ("https://github.com/google/".data ++ "adk-docs".data
                ++ "/blob/main/".data ++ "docs/index.md".data) :=
  ⟨by decide, by decide, by decide,
    C10_upload_rewrite_roundtrip "adk-qa-bucket".data "adk-docs".data
      "docs/index.md".data (by decide) (by decide) (by decide)⟩

end AdkEngine
